import Mathlib

/-!
Shallow embedding of `packages/plugin-ext/src/hosted/node/hosted-plugin-manager.ts`
(the hosted-plugin-instance lifecycle manager of the Theia repository).

Modelling conventions:
* Promises settle in one of three ways: `resolved`, `rejected msg`, or
  `unsettled` (a promise that never settles, which happens in the source when
  an error is thrown inside a promise executor without rejecting the outer
  promise).  Synchronous throws of non-async methods are also modelled as
  `rejected msg` — for the claims only "fails with this error" matters.
* The outside world (OS and network) is an oracle record `World`:
  results of successive `isPortFree` probes, the child's stdout data events
  with their arrival times in milliseconds, whether the i-th HTTP GET receives
  a response during its 1-second window, the spawned child's pid and the
  `ps-tree` enumerator.  `ps-tree(pid, cb)` is the external library used by
  `terminate`; per its contract `cb` receives the list of descendant
  processes of `pid` (the root pid itself is not in the list).
* Externally visible side effects are collected in an `Action` trace
  (port probes, waits, process spawn, child kill, HTTP GETs, the SIGTERM
  batch handed to `cp.spawnSync('kill', ...)`).
* The source's `error`/`exit` child-process event handlers (which reset the
  running flag asynchronously) are outside the modelled traces: the model
  covers runs in which the child stays alive during the observed window,
  which is the scenario the claims quantify over.
* The mutation of the shared module-level `PROCESS_OPTIONS.env` performed at
  the start of `run` is modelled separately (`runEnvSetup`) with an explicit
  reference heap, so that the aliasing created by the spread (shallow) copy
  `{ ...PROCESS_OPTIONS }` is visible.
-/

namespace HostedPlugin

/-- How a JS promise (or a sync call wrapped as one) turns out. -/
inductive SupPromise (α : Type) where
  | resolved (a : α)
  | rejected (msg : String)
  | unsettled
deriving DecidableEq, Repr

/-- Externally visible side effects of the supervisor. -/
inductive Action where
  | probePort (p : Int)
  | wait (ms : Nat)
  | spawn (cmd : List String)
  | killChild
  | httpGet (uri : String)
  | killBatch (args : List String)
deriving DecidableEq, Repr

/-- Oracle for everything outside the supervisor process. -/
structure World where
  /-- result of the k-th `isPortFree` probe within one `run` -/
  probeFree : Nat → Bool
  /-- `process.env.HOSTED_PLUGIN_HOSTNAME` -/
  hostname : Option String
  /-- stdout `data` events of the child: (arrival time in ms, line) -/
  stdoutEvents : List (Nat × String)
  /-- whether the i-th `http.get` receives a response during its window -/
  responds : Nat → Bool
  /-- pid of the spawned child (`hostedInstanceProcess.pid`) -/
  childPid : Int
  /-- the `ps-tree` enumerator: descendant pids of a given root pid
      (excluding the root itself, per the ps-tree contract) -/
  psTree : Int → List Int

/-- Fields of `AbstractHostedPluginManager` (minus the process handle,
    which lives in `World`). -/
structure SupState where
  isInstanceRunnig : Bool
  port : Option Int
  instanceUri : Option String
deriving DecidableEq, Repr

/-- State after the constructor ran (`isInstanceRunnig = false`,
    `port` and `instanceUri` still undefined). -/
def initState : SupState :=
  { isInstanceRunnig := false, port := none, instanceUri := none }

def isRunning (st : SupState) : Bool :=
  st.isInstanceRunnig

/-- `const HOSTED_INSTANCE_START_TIMEOUT_MS = 30000;` -/
def HOSTED_INSTANCE_START_TIMEOUT_MS : Nat := 30000

/-! ### The readiness regex

`const THEIA_INSTANCE_REGEX = /.*Theia app listening on (.*)\. \[\].*/;`

JS `exec` with greedy `.*` picks the largest start position for the literal
`"Theia app listening on "` that still allows the rest to match, and the
greedy capture group extends to the last following occurrence of `". []"`. -/

def startsWithChars : List Char → List Char → Bool
  | [], _ => true
  | _ :: _, [] => false
  | p :: ps, c :: cs => p == c && startsWithChars ps cs

/-- All indices (ascending) at which `pat` occurs in `s`. -/
def occIdx (pat s : List Char) : List Nat :=
  (List.range (s.length + 1)).filter (fun i => startsWithChars pat (s.drop i))

def theiaLit1 : List Char := "Theia app listening on ".data

def theiaLit2 : List Char := ". []".data

/-- `THEIA_INSTANCE_REGEX.exec(line)`: `some captured` when the line matches,
    `none` otherwise. -/
def matchTheia (line : String) : Option String :=
  let s := line.data
  let fin := occIdx theiaLit2 s
  match ((occIdx theiaLit1 s).filter
      (fun i => fin.any (fun j => i + theiaLit1.length ≤ j))).getLast? with
  | none => none
  | some i =>
    match (fin.filter (fun j => i + theiaLit1.length ≤ j)).getLast? with
    | none => none
    | some j =>
      some (String.mk ((s.drop (i + theiaLit1.length)).take
        (j - (i + theiaLit1.length))))

/-! ### Port validation -/

/-- `validatePort` with the k-th probe result supplied by `probe`:
    reject out-of-range ports, probe, on failure wait 1s and probe exactly
    once more.  Returns the outcome and the trace of probes and waits. -/
def validatePort (probe : Nat → Bool) (port : Int) :
    Except String Unit × List Action :=
  if port < 1 || port > 65535 then
    (.error "Port value is incorrect.", [])
  else if probe 0 then
    (.ok (), [.probePort port])
  else if probe 1 then
    (.ok (), [.probePort port, .wait 1000, .probePort port])
  else
    (.error ("Port " ++ toString port ++ " is already in use."),
      [.probePort port, .wait 1000, .probePort port])

/-- JS truthiness of the optional `port` argument: `if (port)` is false for
    an absent port and for port `0`. -/
def portTruthy : Option Int → Bool
  | none => false
  | some p => p != 0

/-- `AbstractHostedPluginManager.getStartCommand`: base command, optional
    `--hostname=`, and — only when `port` is truthy — port validation and
    `--port=`. -/
def getStartCommand (probe : Nat → Bool) (hostname : Option String)
    (port : Option Int) : Except String (List String) × List Action :=
  let command := ["yarn", "theia", "start"]
  let command := match hostname with
    | some h => command ++ ["--hostname=" ++ h]
    | none => command
  if portTruthy port then
    match port with
    | none => (.ok command, [])
    | some p =>
      match validatePort probe p with
      | (.ok _, tr) => (.ok (command ++ ["--port=" ++ toString p]), tr)
      | (.error e, tr) => (.error e, tr)
  else
    (.ok command, [])

example : (validatePort (fun _ => true) 3030).1 = .ok () := rfl
example : (validatePort (fun _ => false) 3030).1
    = .error "Port 3030 is already in use." := rfl
example : (validatePort (fun _ => false) 70000).1
    = .error "Port value is incorrect." := rfl
example : matchTheia "abc Theia app listening on http://localhost:3030. [] x"
    = some "http://localhost:3030" := by decide
example : matchTheia "no match here" = none := by decide

/-! ### Spawning and stdout scanning (`runHostedPluginTheiaInstance`) -/

/-- Lines the output listener sees before the startup timer fires. -/
def relevantLines (events : List (Nat × String)) : List String :=
  (events.filter (fun e => e.1 < HOSTED_INSTANCE_START_TIMEOUT_MS)).map (·.2)

/-- First captured address among the lines, if any (the listener removes
    itself after the first match). -/
def firstMatch : List String → Option String
  | [] => none
  | l :: ls =>
    match matchTheia l with
    | some addr => some addr
    | none => firstMatch ls

/-- `runHostedPluginTheiaInstance`: sets the running flag, spawns the
    command, scans stdout for the readiness regex; if no line matches before
    the 30 s timer, kills the child, clears the flag and rejects with
    `'Timeout.'`.  Returns (promise, flag afterwards, trace). -/
def runHostedPluginTheiaInstance (w : World) (cmd : List String) :
    SupPromise String × Bool × List Action :=
  match firstMatch (relevantLines w.stdoutEvents) with
  | some addr => (.resolved addr, true, [.spawn cmd])
  | none => (.rejected "Timeout.", false, [.spawn cmd, .killChild])

/-! ### The liveness probe (`ensureUriAvailable`)

The source wraps an `async` executor in `new Promise(...)`; `resolve` is only
called from an `http.get` callback.  The final `throw new Error('Cannot
reach ...')` happens inside the async executor, which rejects the executor's
own (unobserved) promise — the outer promise is never rejected, so when all
ten attempts go unanswered the outer promise stays pending forever. -/

/-- The `for (let i = 0; i < 10 && !isReady; i++)` loop.  Each iteration
    issues a GET (whose response, if any, arrives during the following
    1-second wait and sets `isReady`/resolves), then waits 1 s.
    Returns the final `isReady` together with the trace. -/
def ensureLoop (responds : Nat → Bool) (uri : String) :
    Nat → Nat → Bool → Bool × List Action
  | 0, _, isReady => (isReady, [])
  | fuel + 1, i, isReady =>
    if isReady then
      (isReady, [])
    else
      let rest := ensureLoop responds uri fuel (i + 1) (isReady || responds i)
      (rest.1, Action.httpGet uri :: Action.wait 1000 :: rest.2)

/-- `ensureUriAvailable`: resolves as soon as some attempt gets a response;
    if all ten fail, the thrown error does not settle the outer promise. -/
def ensureUriAvailable (responds : Nat → Bool) (uri : String) :
    SupPromise Unit × List Action :=
  let out := ensureLoop responds uri 10 0 false
  if out.1 then (.resolved (), out.2) else (.unsettled, out.2)

/-! ### URI post-processing -/

/-- `NodeHostedPluginRunner.postProcessInstanceUri`: folds the URI through
    the registered post-processors in registration order (a post-processor
    is modelled as its URI transformation).  The abstract base class is the
    special case `pps = []`. -/
def postProcessInstanceUri (pps : List (String → String)) (uri : String) :
    String :=
  match pps with
  | [] => uri
  | p :: rest => postProcessInstanceUri rest (p uri)

/-! ### `run` -/

/-- The plugin location argument of `run` (a `URI`): only its scheme and
    path are consulted.  `toString` is scheme `"://"` path, which is all the
    error message needs. -/
structure PluginUri where
  scheme : String
  path : String
deriving DecidableEq, Repr

def uriToString (u : PluginUri) : String :=
  u.scheme ++ "://" ++ u.path

/-- `AbstractHostedPluginManager.run` / `NodeHostedPluginRunner.run`
    (the latter is `pps`-parameterised; the base class has `pps = []`).
    The environment mutation on the shared `PROCESS_OPTIONS.env` performed
    between the guard and `getStartCommand` is modelled by `runEnvSetup`
    below.  Returns (promise, state afterwards, trace). -/
def run (pps : List (String → String)) (w : World) (st : SupState)
    (pluginUri : PluginUri) (port : Option Int) :
    SupPromise String × SupState × List Action :=
  if st.isInstanceRunnig then
    (.rejected "Hosted plugin instance is already running.", st, [])
  else if pluginUri.scheme == "file" then
    match getStartCommand w.probeFree w.hostname port with
    | (.error e, tr) => (.rejected e, st, tr)
    | (.ok cmd, tr) =>
      let st := if portTruthy port then { st with port := port } else st
      match runHostedPluginTheiaInstance w cmd with
      | (.rejected m, flag, tr2) =>
        (.rejected m, { st with isInstanceRunnig := flag }, tr ++ tr2)
      | (.unsettled, flag, tr2) =>
        (.unsettled, { st with isInstanceRunnig := flag }, tr ++ tr2)
      | (.resolved addr, flag, tr2) =>
        let uri := postProcessInstanceUri pps addr
        let st := { st with isInstanceRunnig := flag, instanceUri := some uri }
        match ensureUriAvailable w.responds uri with
        | (.resolved _, tr3) => (.resolved uri, st, tr ++ tr2 ++ tr3)
        | (.rejected m, tr3) => (.rejected m, st, tr ++ tr2 ++ tr3)
        | (.unsettled, tr3) => (.unsettled, st, tr ++ tr2 ++ tr3)
  else
    (.rejected ("Not supported plugin location: " ++ uriToString pluginUri),
      st, [])

/-! ### `terminate` and `getInstanceURI` -/

/-- `terminate`: when running, asks `ps-tree` for the descendants of the
    child's pid and hands `cp.spawnSync('kill', ...)` the argument list
    `['SIGTERM'].concat(children.map(p => p.PID))`; resolves without
    touching `isInstanceRunnig`.  When not running it throws. -/
def terminate (w : World) (st : SupState) :
    SupPromise Unit × SupState × List Action :=
  if st.isInstanceRunnig then
    (.resolved (), st,
      [.killBatch ("SIGTERM" :: (w.psTree w.childPid).map toString)])
  else
    (.rejected "Hosted plugin instance is not running.", st, [])

/-- `getInstanceURI`: the cached `instanceUri` field while running
    (`none` models the field still being undefined), an error otherwise. -/
def getInstanceURI (st : SupState) : Except String (Option String) :=
  if st.isInstanceRunnig then
    .ok st.instanceUri
  else
    .error "Hosted plugin instance is not running."

/-- All pid-list arguments handed to `cp.spawnSync('kill', ...)` in a trace. -/
def killBatchArgs (tr : List Action) : List String :=
  tr.foldr (fun a acc =>
    match a with
    | .killBatch args => args ++ acc
    | _ => acc) []

/-! ### The shared `PROCESS_OPTIONS` environment

```
const PROCESS_OPTIONS = { cwd: process.cwd(), env: { ...process.env } };
delete PROCESS_OPTIONS.env.ELECTRON_RUN_AS_NODE;
```
and, inside `run` for a file-scheme location:
```
processOptions = { ...PROCESS_OPTIONS };
processOptions.env.HOSTED_PLUGIN = pluginUri.path.toString();
processOptions.env.THEIA_PLUGINS = '';
```
JS objects are references, and the spread copy `{ ...PROCESS_OPTIONS }` is
shallow: the copy's `env` field is the *same* object as
`PROCESS_OPTIONS.env`.  We make this explicit with a heap of environment
maps indexed by reference ids. -/

/-- A JS environment object: keys to values, `none` = absent. -/
def EnvMap : Type := String → Option String

def envSet (e : EnvMap) (k v : String) : EnvMap :=
  fun q => if q == k then some v else e q

def envDelete (e : EnvMap) (k : String) : EnvMap :=
  fun q => if q == k then none else e q

/-- The heap: environment object per reference id. -/
def Mem : Type := Nat → EnvMap

def memSet (mem : Mem) (r : Nat) (k v : String) : Mem :=
  fun q => if q = r then envSet (mem r) k v else mem q

/-- Spawn options value: `cwd` by value, `env` by reference. -/
structure SpawnOptionsRef where
  cwd : String
  envRef : Nat
deriving DecidableEq, Repr

/-- The module-level `PROCESS_OPTIONS` value; its `env` lives at heap
    reference 0. -/
def PROCESS_OPTIONS : SpawnOptionsRef :=
  { cwd := "<process.cwd()>", envRef := 0 }

/-- Heap at module load: reference 0 holds a copy of `process.env` with
    `ELECTRON_RUN_AS_NODE` deleted. -/
def initMem (processEnv : EnvMap) : Mem :=
  fun _ => envDelete processEnv "ELECTRON_RUN_AS_NODE"

/-- The environment setup `run` performs for a file-scheme plugin location:
    shallow-copy `PROCESS_OPTIONS` (same `envRef`!), then write
    `HOSTED_PLUGIN` and `THEIA_PLUGINS` through that reference. -/
def runEnvSetup (mem : Mem) (pluginPath : String) : Mem × SpawnOptionsRef :=
  let processOptions : SpawnOptionsRef :=
    { cwd := PROCESS_OPTIONS.cwd, envRef := PROCESS_OPTIONS.envRef }
  let mem := memSet mem processOptions.envRef "HOSTED_PLUGIN" pluginPath
  let mem := memSet mem processOptions.envRef "THEIA_PLUGINS" ""
  (mem, processOptions)

/-! ### Plugin manifests (`isPluginValid`) -/

/-- JSON values as delivered by `require(<path>/package.json)`. -/
inductive Json where
  | null
  | bool (b : Bool)
  | num (n : Int)
  | str (s : String)
  | arr (elems : List Json)
  | obj (fields : List (String × Json))

/-- JS truthiness of a JSON value (arrays and objects are always truthy). -/
def truthy : Json → Bool
  | .null => false
  | .bool b => b
  | .num n => n != 0
  | .str s => !s.isEmpty
  | .arr _ => true
  | .obj _ => true

/-- JS member access `j[k]`: `none` models `undefined`.  On duplicate keys
    `JSON.parse` keeps the last occurrence; non-objects have no such
    members. -/
def jsGet (j : Json) (k : String) : Option Json :=
  match j with
  | .obj fields => ((fields.filter (fun kv => kv.1 == k)).getLast?).map (·.2)
  | _ => none

/-- JS truthiness of a possibly-undefined value. -/
def truthyOpt : Option Json → Bool
  | none => false
  | some j => truthy j

/-- `isPluginValid`: the filesystem is an oracle mapping a path to the
    parsed JSON of the file there (`none` when `fs.existsSync` is false).
    True iff `<location>/package.json` exists and its `theiaPlugin` value is
    truthy with a truthy `frontend` or `backend` member. -/
def isPluginValid (fs : String → Option Json) (location : String) : Bool :=
  match fs (location ++ "/package.json") with
  | some packageJson =>
    match jsGet packageJson "theiaPlugin" with
    | some plugin =>
      truthy plugin
        && (truthyOpt (jsGet plugin "frontend")
            || truthyOpt (jsGet plugin "backend"))
    | none => false
  | none => false

/-- The claim's literal reading of plugin validity: a manifest exists whose
    contribution object *contains* a `frontend` or `backend` entry (mere key
    presence, regardless of the value). -/
def manifestContainsContribEntry (fs : String → Option Json)
    (location : String) : Bool :=
  match fs (location ++ "/package.json") with
  | some m =>
    match jsGet m "theiaPlugin" with
    | some plugin =>
      (jsGet plugin "frontend").isSome || (jsGet plugin "backend").isSome
    | none => false
  | none => false

/-- What `isPluginValid` actually decides, spelled out as a predicate:
    the manifest exists, its `theiaPlugin` value is truthy, and the
    `frontend` or `backend` member is truthy. -/
def specPluginValid (fs : String → Option Json) (location : String) : Prop :=
  ∃ m plugin, fs (location ++ "/package.json") = some m ∧
    jsGet m "theiaPlugin" = some plugin ∧ truthy plugin = true ∧
    (truthyOpt (jsGet plugin "frontend") = true
      ∨ truthyOpt (jsGet plugin "backend") = true)

/-! ### Concrete fixtures used by witnesses and counterexamples -/

/-- A readiness line the child may print. -/
def theiaLine : String := "ok Theia app listening on http://localhost:3030. [] "

/-- A file-scheme plugin location. -/
def filePlugin : PluginUri := { scheme := "file", path := "/tmp/test-plugin" }

/-- A cooperative world: free ports, readiness line at t = 5 ms, every HTTP
    probe answered, child pid 100 with descendants 101 and 102. -/
def wOk : World :=
  { probeFree := fun _ => true
    hostname := none
    stdoutEvents := [(5, theiaLine)]
    responds := fun _ => true
    childPid := 100
    psTree := fun p => if p == 100 then [101, 102] else [] }

/-- Like `wOk` but no HTTP probe is ever answered. -/
def wNoHttp : World := { wOk with responds := fun _ => false }

/-- Like `wOk` but the readiness line only arrives at t = 40000 ms, after
    the 30 s startup timer has fired. -/
def wLate : World := { wOk with stdoutEvents := [(40000, theiaLine)] }

/-- Like `wOk` but every port probe finds the port taken. -/
def wBusyPort : World := { wOk with probeFree := fun _ => false }

/-- A supervisor that is currently running with a cached instance URI. -/
def stRunning : SupState :=
  { isInstanceRunnig := true, port := none
    instanceUri := some "http://localhost:3030" }

/-! ### Helper lemmas -/

theorem postProcess_eq_foldl (pps : List (String → String)) (u : String) :
    postProcessInstanceUri pps u = pps.foldl (fun acc p => p acc) u := by
  induction pps generalizing u with
  | nil => rfl
  | cons p rest ih => simp [postProcessInstanceUri, ih]

/-- `fuel` upcoming probe results starting at attempt `i`, any true? -/
def anyBelow (responds : Nat → Bool) : Nat → Nat → Bool
  | 0, _ => false
  | fuel + 1, i => responds i || anyBelow responds fuel (i + 1)

theorem ensureLoop_isReady (responds : Nat → Bool) (uri : String) :
    ∀ fuel i b, (ensureLoop responds uri fuel i b).1
      = (b || anyBelow responds fuel i) := by
  intro fuel
  induction fuel with
  | zero => intro i b; simp [ensureLoop, anyBelow]
  | succ f ih =>
    intro i b
    cases b with
    | true => simp [ensureLoop]
    | false => simp [ensureLoop, anyBelow, ih]

theorem anyBelow_eq_true_iff (responds : Nat → Bool) :
    ∀ fuel i, anyBelow responds fuel i = true
      ↔ ∃ k, k < fuel ∧ responds (i + k) = true := by
  intro fuel
  induction fuel with
  | zero => intro i; simp [anyBelow]
  | succ f ih =>
    intro i
    rw [anyBelow, Bool.or_eq_true, ih]
    constructor
    · rintro (h | ⟨k, hk, hr⟩)
      · exact ⟨0, by omega, by simpa using h⟩
      · refine ⟨k + 1, by omega, ?_⟩
        rw [show i + (k + 1) = i + 1 + k by omega]
        exact hr
    · rintro ⟨k, hk, hr⟩
      cases k with
      | zero => exact Or.inl (by simpa using hr)
      | succ k =>
        refine Or.inr ⟨k, by omega, ?_⟩
        rw [show i + 1 + k = i + (k + 1) by omega]
        exact hr

theorem ensureLoop_all_false (responds : Nat → Bool) (uri : String) :
    ∀ fuel i, (∀ k, k < fuel → responds (i + k) = false) →
      ensureLoop responds uri fuel i false =
        (false, List.flatten
          (List.replicate fuel [Action.httpGet uri, Action.wait 1000])) := by
  intro fuel
  induction fuel with
  | zero => intro i _; simp [ensureLoop]
  | succ f ih =>
    intro i h
    have h0 : responds i = false := by simpa using h 0 (by omega)
    have hrest := ih (i + 1) (fun k hk => by
      have := h (k + 1) (by omega)
      rwa [show i + (k + 1) = i + 1 + k by omega] at this)
    simp [ensureLoop, h0, hrest, List.replicate_succ]

theorem ensure_resolved_of_responds (responds : Nat → Bool) (uri : String)
    (h : ∃ i, i < 10 ∧ responds i = true) :
    ∃ tr, ensureUriAvailable responds uri = (.resolved (), tr) := by
  have hready : (ensureLoop responds uri 10 0 false).1 = true := by
    rw [ensureLoop_isReady]
    rw [Bool.false_or, anyBelow_eq_true_iff]
    obtain ⟨i, hi, hr⟩ := h
    exact ⟨i, hi, by simpa using hr⟩
  exact ⟨(ensureLoop responds uri 10 0 false).2,
    by simp [ensureUriAvailable, hready]⟩

theorem ensure_unsettled_of_silence (responds : Nat → Bool) (uri : String)
    (h : ∀ i, i < 10 → responds i = false) :
    ensureUriAvailable responds uri =
      (.unsettled, List.flatten
        (List.replicate 10 [Action.httpGet uri, Action.wait 1000])) := by
  have hloop := ensureLoop_all_false responds uri 10 0
    (fun k hk => by simpa using h k hk)
  simp [ensureUriAvailable, hloop]

theorem firstMatch_eq_none (lines : List String)
    (h : ∀ l ∈ lines, matchTheia l = none) : firstMatch lines = none := by
  induction lines with
  | nil => rfl
  | cons l ls ih =>
    simp [firstMatch, h l (by simp), ih (fun x hx => h x (by simp [hx]))]

theorem no_relevant_match (events : List (Nat × String))
    (h : ∀ e ∈ events, e.1 < HOSTED_INSTANCE_START_TIMEOUT_MS
      → matchTheia e.2 = none) :
    firstMatch (relevantLines events) = none := by
  apply firstMatch_eq_none
  intro l hl
  simp only [relevantLines, List.mem_map, List.mem_filter] at hl
  obtain ⟨⟨t, l2⟩, ⟨hmem, ht⟩, hll⟩ := hl
  subst hll
  exact h _ hmem (by simpa using ht)

theorem runHosted_started (w : World) (cmd : List String) (addr : String)
    (h : firstMatch (relevantLines w.stdoutEvents) = some addr) :
    runHostedPluginTheiaInstance w cmd
      = (.resolved addr, true, [.spawn cmd]) := by
  simp [runHostedPluginTheiaInstance, h]

theorem runHosted_timed_out (w : World) (cmd : List String)
    (h : firstMatch (relevantLines w.stdoutEvents) = none) :
    runHostedPluginTheiaInstance w cmd
      = (.rejected "Timeout.", false, [.spawn cmd, .killChild]) := by
  simp [runHostedPluginTheiaInstance, h]

/-! ### C1 — what `terminate` signals -/

/-- Claim C1 counterexample: with the supervisor running, child pid 100 and
    descendants 101 and 102, the batch handed to `kill` is exactly
    `SIGTERM 101 102` — the child's own pid 100 receives no signal, contrary
    to the claim that the batch covers "every pid in that descendant set and
    the child process itself". -/
theorem terminate_omits_child_pid :
    wOk.childPid = 100 ∧ wOk.psTree 100 = [101, 102] ∧
    killBatchArgs (terminate wOk stRunning).2.2 = ["SIGTERM", "101", "102"] ∧
    ¬ ("100" ∈ killBatchArgs (terminate wOk stRunning).2.2) := by
  refine ⟨rfl, rfl, rfl, ?_⟩
  decide

/-- Claim C1 (amended): for every supervisor in the running state,
    `terminate()` enumerates the descendant process tree rooted at the
    spawned child's process id (via `ps-tree`, whose result excludes the
    root pid) and issues one `kill` batch whose pid arguments are exactly
    that descendant set — the child process itself is not among them. -/
theorem terminate_signals_descendants (w : World) (st : SupState)
    (h : st.isInstanceRunnig = true) :
    terminate w st = (.resolved (), st,
      [.killBatch ("SIGTERM" :: (w.psTree w.childPid).map toString)]) := by
  simp [terminate, h]

/-- Witness for `terminate_signals_descendants` at a concrete running
    supervisor. -/
theorem terminate_signals_descendants_witness :
    terminate wOk stRunning = (.resolved (), stRunning,
      [.killBatch ["SIGTERM", "101", "102"]]) := by
  have h := terminate_signals_descendants wOk stRunning rfl
  simpa using h

/-! ### C6 — `isPluginValid` -/

/-- Claim C6 counterexample: a manifest whose contribution object contains a
    `frontend` entry with the (falsy) value `""`.  The manifest exists and
    contains the entry, yet `isPluginValid` returns `false`, because the
    source tests JS truthiness of the entry's value, not its presence. -/
def fsEmptyFrontend : String → Option Json := fun p =>
  if p == "/tmp/test-plugin/package.json" then
    some (.obj [("theiaPlugin", .obj [("frontend", .str "")])])
  else
    none

theorem isPluginValid_presence_cex :
    manifestContainsContribEntry fsEmptyFrontend "/tmp/test-plugin" = true ∧
    isPluginValid fsEmptyFrontend "/tmp/test-plugin" = false := by
  constructor <;> rfl

/-- Claim C6 (amended): `isPluginValid(location)` returns true iff a
    manifest exists at `<location>/package.json` whose `theiaPlugin` value
    is truthy and whose `frontend` or `backend` member is truthy; it returns
    false (without throwing) when no manifest exists or when both members
    are absent or falsy, and it has no side effects (it is a pure function
    of the filesystem oracle). -/
theorem isPluginValid_iff (fs : String → Option Json) (location : String) :
    isPluginValid fs location = true ↔ specPluginValid fs location := by
  unfold specPluginValid
  cases hfs : fs (location ++ "/package.json") with
  | none => simp [isPluginValid, hfs]
  | some m =>
    cases hp : jsGet m "theiaPlugin" with
    | none => simp [isPluginValid, hfs, hp]
    | some plugin =>
      simp [isPluginValid, hfs, hp, Bool.and_eq_true, Bool.or_eq_true]

/-- A manifest with a truthy `backend` entry, as in the spec's literal
    example `{"theiaPlugin":{"backend":"main.js"}}`. -/
def fsBackendMain : String → Option Json := fun p =>
  if p == "/tmp/test-plugin/package.json" then
    some (.obj [("theiaPlugin", .obj [("backend", .str "main.js")])])
  else
    none

/-- Witness for `isPluginValid_iff`: both directions at concrete
    filesystems. -/
theorem isPluginValid_iff_witness :
    isPluginValid fsBackendMain "/tmp/test-plugin" = true ∧
    ¬ specPluginValid fsEmptyFrontend "/tmp/test-plugin" := by
  constructor
  · exact (isPluginValid_iff fsBackendMain "/tmp/test-plugin").mpr
      ⟨.obj [("theiaPlugin", .obj [("backend", .str "main.js")])],
        .obj [("backend", .str "main.js")], rfl, rfl, rfl, Or.inr rfl⟩
  · intro hspec
    have := (isPluginValid_iff fsEmptyFrontend "/tmp/test-plugin").mpr hspec
    rw [show isPluginValid fsEmptyFrontend "/tmp/test-plugin" = false
      from rfl] at this
    exact Bool.false_ne_true this

/-! ### C8 — the `AlreadyRunningError` guard -/

/-- Claim C8: for every supervisor on which `isRunning()` is true, `run()`
    fails with the already-running error, the state is untouched, and the
    failing call performs no side effect at all — in particular no second
    child process is spawned. -/
theorem run_while_running_rejects (pps : List (String → String)) (w : World)
    (st : SupState) (u : PluginUri) (port : Option Int)
    (h : st.isInstanceRunnig = true) :
    run pps w st u port
      = (.rejected "Hosted plugin instance is already running.", st, []) ∧
    ∀ cmd, Action.spawn cmd ∉ (run pps w st u port).2.2 := by
  have hrun : run pps w st u port
      = (.rejected "Hosted plugin instance is already running.", st, []) := by
    simp [run, h]
  exact ⟨hrun, fun cmd => by simp [hrun]⟩

/-- Witness for `run_while_running_rejects` on a concrete running
    supervisor. -/
theorem run_while_running_rejects_witness :
    run [] wOk stRunning filePlugin none
      = (.rejected "Hosted plugin instance is already running.",
          stRunning, []) ∧
    Action.spawn ["yarn", "theia", "start"]
      ∉ (run [] wOk stRunning filePlugin none).2.2 := by
  have h := run_while_running_rejects [] wOk stRunning filePlugin none rfl
  exact ⟨h.1, h.2 _⟩

/-! ### C9 — the `NotRunningError` guards and the cached URI -/

/-- Claim C9: while `isRunning()` is false, both `terminate()` and
    `getInstanceURI()` fail with the not-running error; while it is true,
    `getInstanceURI()` returns the cached `instanceUri` field of the current
    instance. -/
theorem not_running_guards (w : World) (st : SupState) :
    (st.isInstanceRunnig = false →
      (terminate w st).1
          = .rejected "Hosted plugin instance is not running." ∧
      getInstanceURI st
          = .error "Hosted plugin instance is not running.") ∧
    (st.isInstanceRunnig = true →
      getInstanceURI st = .ok st.instanceUri) := by
  constructor
  · intro h
    constructor
    · simp [terminate, h]
    · simp [getInstanceURI, h]
  · intro h
    simp [getInstanceURI, h]

/-- Witness for `not_running_guards` at the idle initial state and at a
    concrete running state. -/
theorem not_running_guards_witness :
    (terminate wOk initState).1
        = .rejected "Hosted plugin instance is not running." ∧
    getInstanceURI initState
        = .error "Hosted plugin instance is not running." ∧
    getInstanceURI stRunning = .ok (some "http://localhost:3030") := by
  refine ⟨((not_running_guards wOk initState).1 rfl).1,
    ((not_running_guards wOk initState).1 rfl).2, ?_⟩
  exact (not_running_guards wOk stRunning).2 rfl

/-! ### C3 — the liveness probe -/

/-- Claim C3 counterexample: with a child that prints the readiness line but
    an endpoint that never answers any of the ten GETs, `run()` does not
    reject — the 'Cannot reach' error is thrown inside the promise executor
    and the returned promise never settles. -/
theorem run_unreachable_never_rejects_cex :
    (run [] wNoHttp initState filePlugin none).1 = .unsettled ∧
    ∀ m, (run [] wNoHttp initState filePlugin none).1 ≠ .rejected m := by
  have h : (run [] wNoHttp initState filePlugin none).1 = .unsettled := by
    decide
  refine ⟨h, fun m hm => ?_⟩
  rw [h] at hm
  simp at hm

/-- Claim C3 (amended): after the readiness line is matched and the URI
    post-processed, the liveness probe issues an HTTP GET to the resulting
    URI with up to 10 attempts separated by 1-second pauses and resolves as
    soon as any response arrives; if no response is received within all 10
    attempts, the failure does not surface as a rejection — the error is
    thrown inside the promise executor, the promise never settles (so the
    `run()` call hangs instead of rejecting), and the trace shows exactly
    ten GET attempts each followed by a 1-second pause. -/
theorem ensure_uri_poll (responds : Nat → Bool) (uri : String) :
    ((ensureUriAvailable responds uri).1 = .resolved ()
        ↔ ∃ i, i < 10 ∧ responds i = true) ∧
    (∀ m, (ensureUriAvailable responds uri).1 ≠ .rejected m) ∧
    ((∀ i, i < 10 → responds i = false) →
      ensureUriAvailable responds uri =
        (.unsettled, List.flatten
          (List.replicate 10 [Action.httpGet uri, Action.wait 1000]))) := by
  have hiff : (ensureLoop responds uri 10 0 false).1 = true
      ↔ ∃ i, i < 10 ∧ responds i = true := by
    rw [ensureLoop_isReady, Bool.false_or, anyBelow_eq_true_iff]
    constructor
    · rintro ⟨k, hk, hr⟩
      exact ⟨k, hk, by simpa using hr⟩
    · rintro ⟨k, hk, hr⟩
      exact ⟨k, hk, by simpa using hr⟩
  refine ⟨?_, ?_, ensure_unsettled_of_silence responds uri⟩
  · constructor
    · intro hres
      apply hiff.mp
      cases hL : (ensureLoop responds uri 10 0 false).1 with
      | true => rfl
      | false => simp [ensureUriAvailable, hL] at hres
    · intro hex
      simp [ensureUriAvailable, hiff.mpr hex]
  · intro m
    cases hL : (ensureLoop responds uri 10 0 false).1 with
    | true => simp [ensureUriAvailable, hL]
    | false => simp [ensureUriAvailable, hL]

/-- Witness for `ensure_uri_poll`: a response on the fourth attempt resolves
    the probe; total silence leaves it unsettled after ten GET/wait pairs. -/
theorem ensure_uri_poll_witness :
    (ensureUriAvailable (fun i => i == 3) "http://localhost:3030").1
        = .resolved () ∧
    ensureUriAvailable (fun _ => false) "http://localhost:3030"
        = (.unsettled, List.flatten (List.replicate 10
            [Action.httpGet "http://localhost:3030", Action.wait 1000])) :=
  ⟨(ensure_uri_poll (fun i => i == 3) "http://localhost:3030").1.mpr
      ⟨3, by omega, rfl⟩,
    (ensure_uri_poll (fun _ => false) "http://localhost:3030").2.2
      (fun _ _ => rfl)⟩

/-! ### C4 — the startup timeout -/

/-- Claim C4: for every `run()` in which the child emits no stdout line
    matching the readiness pattern within the fixed 30-second window, the
    supervisor kills the child process (the trace ends in the kill), the
    running flag is cleared (back to Idle), and the `run()` promise rejects
    with the timeout error. -/
theorem run_startup_timeout (pps : List (String → String)) (w : World)
    (st : SupState) (u : PluginUri) (port : Option Int)
    (cmd : List String) (tr : List Action)
    (h1 : st.isInstanceRunnig = false) (h2 : u.scheme = "file")
    (h3 : getStartCommand w.probeFree w.hostname port = (.ok cmd, tr))
    (h4 : ∀ e ∈ w.stdoutEvents, e.1 < HOSTED_INSTANCE_START_TIMEOUT_MS →
      matchTheia e.2 = none) :
    (run pps w st u port).1 = .rejected "Timeout." ∧
    isRunning (run pps w st u port).2.1 = false ∧
    (run pps w st u port).2.2 = tr ++ [.spawn cmd, .killChild] := by
  have hrh := runHosted_timed_out w cmd (no_relevant_match w.stdoutEvents h4)
  refine ⟨?_, ?_, ?_⟩ <;> simp [run, h1, h2, h3, hrh, isRunning]

/-- Witness for `run_startup_timeout`: the readiness line arriving at
    t = 40000 ms is too late — the 30 s timer killed the child first. -/
theorem run_startup_timeout_witness :
    (run [] wLate initState filePlugin none).1 = .rejected "Timeout." ∧
    isRunning (run [] wLate initState filePlugin none).2.1 = false ∧
    (run [] wLate initState filePlugin none).2.2
        = [] ++ [.spawn ["yarn", "theia", "start"], .killChild] :=
  run_startup_timeout [] wLate initState filePlugin none
    ["yarn", "theia", "start"] [] rfl rfl rfl (by decide)

/-! ### C5 — port validation -/

/-- Claim C5 counterexample: the requested port 0 lies outside [1, 65535],
    yet `run()` neither fails with the invalid-port error nor refrains from
    spawning — `if (port)` treats 0 as absent, so validation is skipped and
    the child is spawned (without a `--port` flag). -/
theorem port_zero_skips_validation_cex :
    ¬ (1 ≤ (0 : Int) ∧ (0 : Int) ≤ 65535) ∧
    (run [] wOk initState filePlugin (some 0)).1
        = .resolved "http://localhost:3030" ∧
    Action.spawn ["yarn", "theia", "start"]
        ∈ (run [] wOk initState filePlugin (some 0)).2.2 := by
  refine ⟨by norm_num, ?_, ?_⟩ <;> decide

/-- Claim C5 (amended): for every requested *nonzero* port p outside
    [1, 65535], validation fails with the invalid-port error before any
    probe and the failing `run()` performs no side effect at all (no child
    spawned); a requested port of 0 is falsy and bypasses validation.  For
    an in-range port, the code probes once and, only when that probe finds
    the port taken, waits 1 second and probes exactly once more; it fails
    with the port-in-use error iff both probes find the port unavailable. -/
theorem port_validation (probe : Nat → Bool) (p : Int) :
    (p ≠ 0 → p < 1 ∨ p > 65535 →
      validatePort probe p = (.error "Port value is incorrect.", []) ∧
      ∀ (pps : List (String → String)) (st : SupState) (u : PluginUri),
        u.scheme = "file" → st.isInstanceRunnig = false →
        ∀ w : World, w.probeFree = probe →
          (run pps w st u (some p)).1
              = .rejected "Port value is incorrect." ∧
          (run pps w st u (some p)).2.2 = []) ∧
    (1 ≤ p → p ≤ 65535 →
      ((validatePort probe p).1
          = .error ("Port " ++ toString p ++ " is already in use.")
        ↔ probe 0 = false ∧ probe 1 = false) ∧
      (probe 0 = false →
        (validatePort probe p).2
          = [.probePort p, .wait 1000, .probePort p])) := by
  constructor
  · intro hne hout
    have hcond : (decide (p < 1) || decide (p > 65535)) = true := by
      rcases hout with h | h <;> simp [h]
    have hvp : validatePort probe p = (.error "Port value is incorrect.", [])
        := by simp [validatePort, hcond]
    refine ⟨hvp, fun pps st u hu hst w hw => ?_⟩
    have hbne : (p != 0) = true := by simpa using hne
    have hgc : getStartCommand w.probeFree w.hostname (some p)
        = (.error "Port value is incorrect.", []) := by
      rw [hw]
      simp [getStartCommand, portTruthy, hbne, hvp]
    constructor <;> simp [run, hst, hu, hgc]
  · intro hlo hhi
    have hcond : (decide (p < 1) || decide (p > 65535)) = false := by
      simp
      omega
    constructor
    · cases hp0 : probe 0 with
      | true => simp [validatePort, hcond, hp0]
      | false =>
        cases hp1 : probe 1 with
        | true => simp [validatePort, hcond, hp0, hp1]
        | false => simp [validatePort, hcond, hp0, hp1]
    · intro hp0
      cases hp1 : probe 1 with
      | true => simp [validatePort, hcond, hp0, hp1]
      | false => simp [validatePort, hcond, hp0, hp1]

/-- Witness for `port_validation`: port 70000 is rejected without a probe
    and without a spawn; port 3030 on a busy host is reported in use after
    probe, 1 s wait, probe. -/
theorem port_validation_witness :
    validatePort (fun _ => false) 70000
        = (.error "Port value is incorrect.", []) ∧
    (run [] wBusyPort initState filePlugin (some 70000)).1
        = .rejected "Port value is incorrect." ∧
    (run [] wBusyPort initState filePlugin (some 70000)).2.2 = [] ∧
    (validatePort (fun _ => false) 3030).1
        = .error "Port 3030 is already in use." ∧
    (validatePort (fun _ => false) 3030).2
        = [.probePort 3030, .wait 1000, .probePort 3030] := by
  have h1 := (port_validation (fun _ => false) 70000).1
    (by norm_num) (by norm_num)
  have h2 := (port_validation (fun _ => false) 3030).2
    (by norm_num) (by norm_num)
  have hrun := h1.2 [] initState filePlugin rfl rfl wBusyPort rfl
  exact ⟨h1.1, hrun.1, hrun.2, h2.1.mpr ⟨rfl, rfl⟩, h2.2 rfl⟩

/-! ### C7 — post-processor order -/

/-- Claim C7: for every ordered list of registered endpoint post-processors
    and every captured readiness address, the endpoint `run()` resolves with
    equals the left fold of the processors over the address — each
    processor's transformation applied in registration order, first
    registered first. -/
theorem run_applies_postprocessors_in_order (pps : List (String → String))
    (w : World) (st : SupState) (u : PluginUri) (port : Option Int)
    (cmd : List String) (tr : List Action) (addr : String)
    (h1 : st.isInstanceRunnig = false) (h2 : u.scheme = "file")
    (h3 : getStartCommand w.probeFree w.hostname port = (.ok cmd, tr))
    (h4 : firstMatch (relevantLines w.stdoutEvents) = some addr)
    (h5 : ∃ i, i < 10 ∧ w.responds i = true) :
    (run pps w st u port).1
      = .resolved (pps.foldl (fun acc p => p acc) addr) := by
  have hrh := runHosted_started w cmd addr h4
  obtain ⟨etr, hens⟩ := ensure_resolved_of_responds w.responds
    (postProcessInstanceUri pps addr) h5
  rw [← postProcess_eq_foldl]
  simp [run, h1, h2, h3, hrh, hens]

/-- Two post-processors appending `/a` then `/b` to the URI. -/
def ppsAB : List (String → String) :=
  [fun s => s ++ "/a", fun s => s ++ "/b"]

/-- Witness for `run_applies_postprocessors_in_order`: the processors
    appending `/a` then `/b` yield an endpoint ending in `/a/b`, not
    `/b/a`. -/
theorem run_applies_postprocessors_in_order_witness :
    (run ppsAB wOk initState filePlugin none).1
      = .resolved "http://localhost:3030/a/b" := by
  have h := run_applies_postprocessors_in_order ppsAB wOk initState
    filePlugin none ["yarn", "theia", "start"] [] "http://localhost:3030"
    rfl rfl rfl (by decide) ⟨0, by omega, rfl⟩
  rw [h]
  rfl

/-! ### C2 — the lifecycle of the running flag -/

/-- Claim C2 counterexample: after a successful `run()` from the initial
    state, `terminate()` resolves but `isRunning()` is still true — the
    source's `terminate` never clears `isInstanceRunnig`. -/
theorem terminate_leaves_flag_set_cex :
    (run [] wOk initState filePlugin none).1
        = .resolved "http://localhost:3030" ∧
    (terminate wOk (run [] wOk initState filePlugin none).2.1).1
        = .resolved () ∧
    isRunning (terminate wOk (run [] wOk initState filePlugin none).2.1).2.1
        = true := by
  refine ⟨?_, ?_, ?_⟩ <;> decide

/-- Claim C2 (amended): `isRunning()` is false before any `run()`, true
    after a `run()` that resolved successfully, and *remains true* when a
    subsequent `terminate()` resolves — `terminate` does not reset the flag
    (it is only cleared by the child process's `exit`/`error` events). -/
theorem lifecycle_running_flag (pps : List (String → String)) (w : World)
    (u : PluginUri) (port : Option Int) (uriRes : String)
    (h : (run pps w initState u port).1 = .resolved uriRes) :
    isRunning initState = false ∧
    isRunning (run pps w initState u port).2.1 = true ∧
    (terminate w (run pps w initState u port).2.1).1 = .resolved () ∧
    isRunning (terminate w (run pps w initState u port).2.1).2.1 = true := by
  have hflag : isRunning (run pps w initState u port).2.1 = true := by
    by_cases hs : u.scheme = "file"
    · cases hgc : getStartCommand w.probeFree w.hostname port with
      | mk res tr =>
        cases res with
        | error e => simp [run, initState, hs, hgc] at h
        | ok cmd =>
          cases hfm : firstMatch (relevantLines w.stdoutEvents) with
          | none =>
            have hrh := runHosted_timed_out w cmd hfm
            simp [run, initState, hs, hgc, hrh] at h
          | some addr =>
            have hrh := runHosted_started w cmd addr hfm
            cases hens : ensureUriAvailable w.responds
                (postProcessInstanceUri pps addr) with
            | mk ep etr =>
              cases ep with
              | resolved a =>
                simp [run, initState, hs, hgc, hrh, hens, isRunning]
              | rejected m =>
                simp [run, initState, hs, hgc, hrh, hens, isRunning]
              | unsettled =>
                simp [run, initState, hs, hgc, hrh, hens, isRunning]
    · simp [run, initState, hs] at h
  have hflag2 : (run pps w initState u port).2.1.isInstanceRunnig = true :=
    hflag
  refine ⟨rfl, hflag, ?_, ?_⟩
  · simp [terminate, hflag2]
  · simp [terminate, hflag2, isRunning]

/-- Witness for `lifecycle_running_flag` on the cooperative world. -/
theorem lifecycle_running_flag_witness :
    isRunning initState = false ∧
    isRunning (run [] wOk initState filePlugin none).2.1 = true ∧
    (terminate wOk (run [] wOk initState filePlugin none).2.1).1
        = .resolved () ∧
    isRunning (terminate wOk (run [] wOk initState filePlugin none).2.1).2.1
        = true :=
  lifecycle_running_flag [] wOk filePlugin none "http://localhost:3030"
    (by decide)

/-! ### C10 — the shared environment map -/

/-- Claim C10: the options copy made by `run` shallow-copies the
    module-level `PROCESS_OPTIONS`, so its `env` field aliases the one
    shared map (same heap reference); the `HOSTED_PLUGIN` and
    `THEIA_PLUGINS` values a launch writes persist in that shared map after
    the launch, and a later launch from the same module works on the very
    same map (its copy carries the same reference, it sees the earlier
    writes until it overwrites them). -/
theorem process_options_env_shared (mem : Mem) (p1 p2 : String) :
    (runEnvSetup mem p1).2.envRef = PROCESS_OPTIONS.envRef ∧
    ((runEnvSetup mem p1).1 PROCESS_OPTIONS.envRef) "HOSTED_PLUGIN"
        = some p1 ∧
    ((runEnvSetup mem p1).1 PROCESS_OPTIONS.envRef) "THEIA_PLUGINS"
        = some "" ∧
    (runEnvSetup (runEnvSetup mem p1).1 p2).2.envRef
        = (runEnvSetup mem p1).2.envRef ∧
    ((runEnvSetup mem p1).1 (runEnvSetup (runEnvSetup mem p1).1 p2).2.envRef)
        "HOSTED_PLUGIN" = some p1 ∧
    ((runEnvSetup (runEnvSetup mem p1).1 p2).1 PROCESS_OPTIONS.envRef)
        "HOSTED_PLUGIN" = some p2 := by
  exact ⟨rfl, rfl, rfl, rfl, rfl, rfl⟩

end HostedPlugin
